import Mathlib

/-!
Shallow embedding of the StaticArchive core
(src/StaticArchive/Cpp/src/core: static.h++, static.cpp, helpers.h++).

Bytes are modelled as natural numbers below 256 in lists; the file behind the
fstream is a byte list and the stream position is passed explicitly.  The conv
union of helpers.h++ reinterprets an integer as its in-memory bytes; the build
target is little-endian, so integer fields are serialized least significant
byte first (toLE / fromLE below).
-/

set_option maxRecDepth 8192

def BYTE : Nat := 1

def WORD : Nat := 2

def DWORD : Nat := 4

def QWORD : Nat := 8

/-- The bytes of the conv union for value v of a w-byte integer type:
little-endian, w bytes, truncating at 2 ^ (8 * w) as the C integer type does. -/
def toLE : Nat → Nat → List Nat
  | 0, _ => []
  | w + 1, v => v % 256 :: toLE w (v / 256)

/-- Reading the conv union back: value of a little-endian byte list. -/
def fromLE : List Nat → Nat
  | [] => 0
  | b :: bs => b + 256 * fromLE bs

/-- STATIC_MAGIC from static.h++. -/
def STATIC_MAGIC : List Nat := [0x91, 0xde, 0xee, 0x9c, 0x80, 0x5c, 0x23, 0xe6]

def STATIC_FLAG_VERBOSE : Nat := 0b10000000

def STATIC_FLAG_ONLY_NAMES : Nat := 0b01000000

def STATIC_FLAG_IGNORE_ERRORS : Nat := 0b00100000

def STATIC_FLAG_WRITE_CRC32 : Nat := 0b00010000

def STATIC_FLAG_DISABLE_CHECKS : Nat := 0b00001000

/-- enum SizeMode of static.h++ (values 0, 1, 2). -/
inductive SizeMode
  | SizeMode16
  | SizeMode32
  | SizeMode64
  deriving DecidableEq

/-- enum Mode of static.h++ (values 0, 1, 2). -/
inductive Mode
  | ModeRead
  | ModeAppend
  | ModeCreate
  deriving DecidableEq

/-- The integer value of a SizeMode enumerator, as written by (char)sizeMode. -/
def sizeModeByte : SizeMode → Nat
  | .SizeMode16 => 0
  | .SizeMode32 => 1
  | .SizeMode64 => 2

/-- The enum cast (SizeMode)b performed by loadSignature.  Only the bytes 0, 1
and 2 denote enumerators; the cast of any other value does not name a SizeMode
and is never exercised by the theorems below, so it is sent to SizeMode64. -/
def sizeModeOfByte (b : Nat) : SizeMode :=
  match b with
  | 0 => .SizeMode16
  | 1 => .SizeMode32
  | _ => .SizeMode64

/-- struct FileInfo of static.h++.  The name member is a char pointer in the
source; it denotes a byte string here. -/
structure FileInfo where
  name : List Nat
  size : Nat
  crc : Nat
  offset : Nat
  dataOffset : Nat
  deriving DecidableEq

/-- struct EntryHeader of static.h++. -/
structure EntryHeader where
  name : List Nat
  crc : Nat
  dataSize : Nat
  deriving DecidableEq

/-- The bitfield record inside the Flags union of static.h++. -/
structure FlagsStruct where
  verbose : Bool
  onlyNames : Bool
  ignoreErrors : Bool
  writeCrc : Bool
  checks : Bool
  deriving DecidableEq

/-- The Flags union value produced by the braced initialization of flags_ from
the flags byte at static.cpp lines 34 and 44.  Brace initialization of a union initializes
its FIRST non-static data member, here the bitfield struct f, not the byte
member v: with brace elision the single element flags initializes the first
bitfield verbose, truncated to its one-bit width, and every remaining
bitfield — onlyNames, ignoreErrors, writeCrc and checks — is value-initialized
to zero.  The byte member v is never written, so the flags byte is never
decoded through the bitfield layout at all. -/
def Flags.braceInit (flags : Nat) : FlagsStruct :=
  ⟨flags.testBit 0, false, false, false, false⟩

/-- The state of a StaticArchive handle: the byte contents of the file behind
the owned fstream together with the data members of the class (static.h++
lines 101-116).  Field defaults mirror the in-class initializers. -/
structure ArchiveState where
  data : List Nat
  generalPurposeField : Nat
  checks : Bool
  sizeMode : SizeMode := .SizeMode64
  mode : Mode := .ModeRead
  fileCount : Nat := 0
  writeCrc : Bool := true
  closed : Bool := false
  deriving DecidableEq

/-- Errors surfaced by the archive operations.  The source declares
InvalidNameSizeException; the remaining kinds are those the spec names for the
operations modelled from it. -/
inductive ArchiveError
  | InvalidNameSize (size : Nat)
  | NameTooLong
  | ArchiveClosed
  | ReadOnlyViolation
  | CrcMismatch
  deriving DecidableEq

/-- static.cpp lines 31-47: both flag-taking constructors brace-initialize the
Flags union flags_ from the flags byte and store checks := flags_.f.checks and
writeCrc := flags_.f.writeCrc.  Because the braced initializer fills the first
union member f rather than the byte member v (see Flags.braceInit), both
stored fields are the value-initialized zero bitfields, whatever the flags
byte holds; no other member depends on the flags byte. -/
def StaticArchive.applyFlags (st : ArchiveState) (flags : Nat) : ArchiveState :=
  { st with checks := (Flags.braceInit flags).checks,
            writeCrc := (Flags.braceInit flags).writeCrc }

/-- static.cpp lines 61-69: seek to 0, read 8 bytes, return
strncmp(magic, buffer, QWORD) as a bool.  strncmp is zero exactly when the two
byte runs agree on all 8 positions (the magic holds no zero byte, so the
comparison never stops early), hence the returned bool is true exactly when
the first 8 bytes of the file differ from the magic. -/
def StaticArchive.checkSignature (data : List Nat) : Bool :=
  decide (data.take QWORD ≠ STATIC_MAGIC)

/-- The 22 signature bytes put by writeSignature (static.cpp lines 86-100):
magic, generalPurposeField over conv of a 4-byte integer, fileCount over conv
of an 8-byte integer, then the sizeMode and writeCrc bytes. -/
def StaticArchive.signatureBytes (st : ArchiveState) : List Nat :=
  STATIC_MAGIC ++ toLE DWORD st.generalPurposeField ++ toLE QWORD st.fileCount
    ++ [sizeModeByte st.sizeMode] ++ [if st.writeCrc then 1 else 0]

/-- static.cpp lines 86-100: seekp(0) then write the 22 signature bytes; the
rest of the file is untouched. -/
def StaticArchive.writeSignature (st : ArchiveState) : List Nat :=
  StaticArchive.signatureBytes st ++ st.data.drop 22

/-- static.cpp lines 71-84: seekg(QWORD); read 4 bytes into gp and assign
generalPurposeField; then read 8 bytes, but into gp.data again (the source
passes gp.data where fc.data was meant, writing past the 4-byte array), so the
zero-initialized fc.value is assigned to fileCount and the loaded value is 0
whatever the stream holds, while the stream position still advances by 8;
then the sizeMode byte at offset 20 and the writeCrc byte at offset 21. -/
def StaticArchive.loadSignature (data : List Nat) (st : ArchiveState) : ArchiveState :=
  { st with
    generalPurposeField := fromLE ((data.drop QWORD).take DWORD),
    fileCount := 0,
    sizeMode := sizeModeOfByte (data.getD 20 0),
    writeCrc := decide (data.getD 21 0 ≠ 0) }

/-- static.cpp lines 102-139, reading at position pos of the archive state.
The length byte ns is read, then ns raw bytes, but the name is produced by
constructing std::string from the char buffer, which copies only up to the
first zero byte (the buffer carries no terminator of its own, so only the
prefix before a zero byte inside the read bytes is defined behavior).  The
4-byte crc follows.  The dataSize switch reads 8 bytes under SizeMode64 and 4
under SizeMode32; under SizeMode16 the source assigns dataSize from the
zero-initialized conv before reading the 2 bytes, so the returned dataSize is
0 while the position still advances by 2. -/
def StaticArchive.readHeader (st : ArchiveState) (pos : Nat) : EntryHeader × Nat :=
  let ns := st.data.getD pos 0
  let nameBytes := (st.data.drop (pos + 1)).take ns
  let name := nameBytes.takeWhile (fun b => b != 0)
  let crc := fromLE ((st.data.drop (pos + 1 + ns)).take DWORD)
  let p := pos + 1 + ns + DWORD
  match st.sizeMode with
  | .SizeMode64 => (⟨name, crc, fromLE ((st.data.drop p).take QWORD)⟩, p + QWORD)
  | .SizeMode32 => (⟨name, crc, fromLE ((st.data.drop p).take DWORD)⟩, p + DWORD)
  | .SizeMode16 => (⟨name, crc, 0⟩, p + WORD)

/-- static.cpp lines 141-153: throw InvalidNameSizeException when
name.size() > 256; otherwise put the length byte (char)name.size(), the raw
name bytes, the 4-byte crc, and dataSize always through conv of an 8-byte
integer — the sizeMode member is not consulted.  The return value is the byte
run appended at the stream position. -/
def StaticArchive.writeheader (st : ArchiveState) (name : List Nat)
    (crc dataSize : Nat) : Except ArchiveError (List Nat) :=
  if 256 < name.length then .error (.InvalidNameSize name.length)
  else .ok (name.length % 256 :: (name ++ toLE DWORD crc ++ toLE QWORD dataSize))

/-- static.cpp line 163. -/
def StaticArchive.getSizeMode (st : ArchiveState) : SizeMode := st.sizeMode

/-- static.cpp line 165. -/
def StaticArchive.getFileCount (st : ArchiveState) : Nat := st.fileCount

/-- static.cpp line 167. -/
def StaticArchive.getWriteCrc (st : ArchiveState) : Bool := st.writeCrc

/-- static.cpp lines 173-185. -/
def StaticArchive.getMaxFilesize (st : ArchiveState) : Nat :=
  match st.sizeMode with
  | .SizeMode16 => 0xffff
  | .SizeMode32 => 0xffffffff
  | .SizeMode64 => 0xffffffffffffffff

/-- Modelled from the spec: the append bodies in static.cpp lines 49-51 are
empty stubs, so the orchestration is taken from the spec.  Requires an open
handle in Append or Create mode and a name of at most 255 bytes; computes
crc over the payload when writeCrc is enabled, else stores 0; seeks to
end-of-file, writes the entry header (through the writeheader of the source)
then the payload bytes, increments the 64-bit fileCount, rewrites the
signature block, and returns the FileInfo of the new entry.  The checksum is
an external pure function and is passed in as crcFn. -/
def StaticArchive.append (crcFn : List Nat → Nat) (st : ArchiveState)
    (name payload : List Nat) : Except ArchiveError (ArchiveState × FileInfo) :=
  if st.closed then .error .ArchiveClosed
  else if st.mode = .ModeRead then .error .ReadOnlyViolation
  else if 255 < name.length then .error .NameTooLong
  else
    (StaticArchive.writeheader st name
        (if st.writeCrc then crcFn payload else 0) payload.length).map fun hdr =>
      let appended : ArchiveState :=
        { st with data := st.data ++ hdr ++ payload,
                  fileCount := (st.fileCount + 1) % 2 ^ 64 }
      ({ appended with data := StaticArchive.writeSignature appended },
        { name := name, size := payload.length,
          crc := if st.writeCrc then crcFn payload else 0,
          offset := st.data.length,
          dataOffset := st.data.length + hdr.length })

/-- Modelled from the spec: the read overloads are declared in static.h++
lines 72-78 but have no definition under src.  read seeks to
fileInfo.dataOffset and copies exactly fileInfo.size bytes into the sink;
when checks are enabled it recomputes the checksum over the bytes read and
reports CrcMismatch when it disagrees with the stored value, the sink keeping
the bytes either way.  The pair returned is the sink content and the error,
if any. -/
def StaticArchive.read (crcFn : List Nat → Nat) (st : ArchiveState)
    (fi : FileInfo) : List Nat × Option ArchiveError :=
  let bytes := (st.data.drop fi.dataOffset).take fi.size
  (bytes, if st.checks ∧ crcFn bytes ≠ fi.crc then some .CrcMismatch else none)

/-- The pair produced by a successful append: the success branch of
StaticArchive.append spelled out, named so the round-trip theorem can exhibit
it as the existential witness. -/
def StaticArchive.appendResult (crcFn : List Nat → Nat) (st : ArchiveState)
    (name payload : List Nat) : ArchiveState × FileInfo :=
  let hdr : List Nat := name.length % 256 :: (name
    ++ toLE DWORD (if st.writeCrc then crcFn payload else 0)
    ++ toLE QWORD payload.length)
  let appended : ArchiveState :=
    { st with data := st.data ++ hdr ++ payload,
              fileCount := (st.fileCount + 1) % 2 ^ 64 }
  ({ appended with data := StaticArchive.writeSignature appended },
    { name := name, size := payload.length,
      crc := if st.writeCrc then crcFn payload else 0,
      offset := st.data.length,
      dataOffset := st.data.length + hdr.length })

/-- A fresh handle over a file holding 22 zero bytes, opened for Create with
all flags clear; the base state of the concrete evaluations below. -/
def st0 : ArchiveState :=
  { data := List.replicate 22 0, generalPurposeField := 0, checks := false,
    sizeMode := .SizeMode64, mode := .ModeCreate, fileCount := 0,
    writeCrc := false, closed := false }

/-- A handle state carrying one entry and nonzero field values. -/
def st1 : ArchiveState :=
  { st0 with generalPurposeField := 7, fileCount := 1,
             sizeMode := .SizeMode32, writeCrc := true }

/-- A handle in 16-bit size mode. -/
def st16 : ArchiveState := { st0 with sizeMode := .SizeMode16 }

/-! ## Theorems for the claims -/

/-- C9: getMaxFilesize returns 0xFFFF when sizeMode is 16-bit, 0xFFFFFFFF when
sizeMode is 32-bit, and 0xFFFFFFFFFFFFFFFF when sizeMode is 64-bit. -/
theorem getMaxFilesize_matches_sizeMode (st : ArchiveState) :
    (st.sizeMode = .SizeMode16 → StaticArchive.getMaxFilesize st = 0xffff) ∧
    (st.sizeMode = .SizeMode32 → StaticArchive.getMaxFilesize st = 0xffffffff) ∧
    (st.sizeMode = .SizeMode64 → StaticArchive.getMaxFilesize st = 0xffffffffffffffff) := by
  refine ⟨fun h => ?_, fun h => ?_, fun h => ?_⟩ <;>
    simp [StaticArchive.getMaxFilesize, h]

/-- Witness for C9 at the three concrete size modes. -/
theorem getMaxFilesize_matches_sizeMode_witness :
    StaticArchive.getMaxFilesize st16 = 0xffff ∧
    StaticArchive.getMaxFilesize st1 = 0xffffffff ∧
    StaticArchive.getMaxFilesize st0 = 0xffffffffffffffff :=
  ⟨(getMaxFilesize_matches_sizeMode st16).1 rfl,
   (getMaxFilesize_matches_sizeMode st1).2.1 rfl,
   (getMaxFilesize_matches_sizeMode st0).2.2 rfl⟩

/-- C10, counterexample: the claim says the constructors set writeCrc from
bit 3 and checks from bit 4 of the flags byte.  At the concrete flags bytes
STATIC_FLAG_DISABLE_CHECKS (bit 3 set) and STATIC_FLAG_WRITE_CRC32 (bit 4
set) the constructors store false for both members, because the braced
initialization fills the bitfield struct member of the union, not its byte
member, so the claimed bit extraction never happens. -/
theorem flags_bits_crossed_counterexample :
    (StaticArchive.applyFlags st0 STATIC_FLAG_DISABLE_CHECKS).writeCrc = false ∧
    Nat.testBit STATIC_FLAG_DISABLE_CHECKS 3 = true ∧
    (StaticArchive.applyFlags st0 STATIC_FLAG_WRITE_CRC32).checks = false ∧
    Nat.testBit STATIC_FLAG_WRITE_CRC32 4 = true := by
  refine ⟨?_, ?_, ?_, ?_⟩ <;> decide

/-- C10 as amended: for every flags byte f, the flag-taking constructors set
both the writeCrc and the checks member to false — the braced initialization
of the Flags union initializes its first member, the bitfield struct, so the
flags byte lands truncated to one bit in verbose while writeCrc and checks
are value-initialized to zero; neither STATIC_FLAG_WRITE_CRC32 nor
STATIC_FLAG_DISABLE_CHECKS has any effect on the handle. -/
theorem flags_byte_ignored (st : ArchiveState) (f : Nat) :
    (StaticArchive.applyFlags st f).writeCrc = false ∧
    (StaticArchive.applyFlags st f).checks = false ∧
    (Flags.braceInit f).verbose = f.testBit 0 :=
  ⟨rfl, rfl, rfl⟩

/-- C3: the claim says the signature check reports the archive as valid
exactly when the first 8 bytes equal the magic constant.  The source returns
the strncmp result itself as the bool, so a file beginning with the magic is
reported false and one that differs is reported true — the polarity is
inverted. -/
theorem checkSignature_polarity_inverted :
    StaticArchive.checkSignature (STATIC_MAGIC ++ List.replicate 14 0) = false ∧
    StaticArchive.checkSignature (List.replicate 22 0) = true := by
  constructor <;> decide

/-- C2: the claim says writeSignature then loadSignature reproduces
generalPurposeField, fileCount, sizeMode and writeCrc.  Three of the four do
round-trip, but the source reads the fileCount bytes into the
generalPurposeField buffer and assigns fileCount from the untouched
zero-initialized conv, so a written fileCount of 1 loads back as 0. -/
theorem signature_roundtrip_loses_fileCount :
    (StaticArchive.loadSignature (StaticArchive.writeSignature st1) st0).generalPurposeField
        = st1.generalPurposeField ∧
    (StaticArchive.loadSignature (StaticArchive.writeSignature st1) st0).sizeMode
        = st1.sizeMode ∧
    (StaticArchive.loadSignature (StaticArchive.writeSignature st1) st0).writeCrc
        = st1.writeCrc ∧
    st1.fileCount = 1 ∧
    (StaticArchive.loadSignature (StaticArchive.writeSignature st1) st0).fileCount = 0 := by
  refine ⟨?_, ?_, ?_, ?_, ?_⟩ <;> decide

/-- C4: the claim says writeheader encodes dataSize with the width selected by
sizeMode, 2 bytes under 16-bit mode.  The source encodes dataSize through conv
of an 8-byte integer whatever the sizeMode member holds: under SizeMode16 the
header for a 1-byte name is 1 + 1 + 4 + 8 = 14 bytes, where the claim
predicts 1 + 1 + 4 + 2 = 8. -/
theorem writeheader_always_8_byte_dataSize :
    StaticArchive.writeheader st16 [97] 7 5
        = .ok [1, 97, 7, 0, 0, 0, 5, 0, 0, 0, 0, 0, 0, 0] ∧
    (StaticArchive.writeheader st16 [97] 7 5).map List.length = .ok 14 := by
  constructor <;> rfl

/-- C5: the claim says readHeader returns the dataSize value stored in the
header for every sizeMode.  Under SizeMode16 the source assigns dataSize from
the conv before reading the two bytes into it, so a stored dataSize of 5
(bytes 5, 0 little-endian) is returned as 0, while the position still
advances past the full 8-byte header. -/
theorem readHeader_sizeMode16_returns_zero :
    (StaticArchive.readHeader { st16 with data := [1, 97, 7, 0, 0, 0, 5, 0] } 0).1.dataSize
        = 0 ∧
    fromLE [5, 0] = 5 ∧
    (StaticArchive.readHeader { st16 with data := [1, 97, 7, 0, 0, 0, 5, 0] } 0).2 = 8 := by
  refine ⟨?_, ?_, ?_⟩ <;> rfl

/-- C6: the claim says every name longer than 255 bytes is rejected with
NameTooLong, in particular a 256-byte name.  The source checks
name.size() > 256, so a 256-byte name is accepted, and the length prefix
(char)256 truncates to 0. -/
theorem writeheader_accepts_256_byte_name :
    StaticArchive.writeheader st0 (List.replicate 256 97) 7 5
        = .ok (0 :: (List.replicate 256 97 ++ toLE DWORD 7 ++ toLE QWORD 5)) := rfl

/-- C8: the claim says readHeader returns exactly the ns raw bytes after the
length byte as the name, zero bytes preserved.  The source builds the name
with the std::string constructor from a char pointer, which stops at the
first zero byte: for a header with length byte 2 and name bytes 0, 65 the
returned name is empty instead of those two bytes. -/
theorem readHeader_name_stops_at_zero_byte :
    (StaticArchive.readHeader
        { st0 with data := [2, 0, 65, 7, 0, 0, 0, 9, 0, 0, 0, 0, 0, 0, 0] } 0).1.name
        = [] ∧
    ([] : List Nat) ≠ [0, 65] := by
  constructor
  · rfl
  · decide

/-- C7: the claim says fileCount is N after N successful appends and stays N
across close and reopen.  With append modelled from the spec (the source body
is an empty stub), one append on a fresh Create handle makes the in-memory
fileCount 1 and rewrites the signature; but reopening loads the signature
through loadSignature, whose buffer slip always assigns fileCount := 0, so
the reopened handle reports 0 instead of 1. -/
theorem fileCount_not_durable_across_reopen :
    (StaticArchive.append (fun _ => 0) st0 [97] [1, 2]).map
        (fun p => (StaticArchive.getFileCount p.1,
          StaticArchive.getFileCount (StaticArchive.loadSignature p.1.data st0)))
        = .ok (1, 0) := rfl

/-! ## Round-trip of append and read (C1) -/

theorem toLE_length (w v : Nat) : (toLE w v).length = w := by
  induction w generalizing v with
  | zero => rfl
  | succ w ih => simp [toLE, ih]

theorem signatureBytes_length (st : ArchiveState) :
    (StaticArchive.signatureBytes st).length = 22 := by
  simp [StaticArchive.signatureBytes, toLE_length, STATIC_MAGIC, DWORD, QWORD]

/-- Overwriting the first 22 bytes of t leaves everything from a position at
or past 22 unchanged. -/
theorem drop_past_signature (A t : List Nat) (k : Nat) (hA : A.length = 22)
    (hk : 22 ≤ k) : (A ++ t.drop 22).drop k = t.drop k := by
  have h2 : 22 + (k - 22) = k := by omega
  calc (A ++ t.drop 22).drop k
      = ((A ++ t.drop 22).drop 22).drop (k - 22) := by rw [List.drop_drop, h2]
    _ = (t.drop 22).drop (k - 22) := by rw [List.drop_left' hA]
    _ = t.drop k := by rw [List.drop_drop, h2]

/-- Reading the payload back from a file whose first 22 bytes were rewritten
after the payload was appended at a position at or past byte 22. -/
theorem take_after_signature (A D payload : List Nat) (k : Nat)
    (hA : A.length = 22) (hk : 22 ≤ k) (hD : D.drop k = payload) :
    ((A ++ D.drop 22).drop k).take payload.length = payload := by
  rw [drop_past_signature A D k hA hk, hD, List.take_length]

theorem drop_at_data_end (pre hdr payload : List Nat) :
    (pre ++ hdr ++ payload).drop (pre.length + hdr.length) = payload := by
  rw [← List.length_append]
  exact List.drop_left _ _

/-- C1: for every name of 1 to 255 bytes and every payload, append on an open
writable handle succeeds and read of the returned FileInfo yields exactly the
payload bytes.  The handle must hold a file of at least 22 bytes, which every
archive has once its signature block is written; append is modelled from the
spec over the writeheader and writeSignature of the source, read is modelled
from the spec. -/
theorem append_then_read (crcFn : List Nat → Nat) (st : ArchiveState)
    (name payload : List Nat)
    (hlen1 : 1 ≤ name.length) (hlen2 : name.length ≤ 255)
    (hmode : st.mode ≠ .ModeRead) (hclosed : st.closed = false)
    (hdata : 22 ≤ st.data.length) :
    ∃ st2 fi, StaticArchive.append crcFn st name payload = .ok (st2, fi) ∧
      (StaticArchive.read crcFn st2 fi).1 = payload := by
  have hwh : StaticArchive.writeheader st name
      (if st.writeCrc then crcFn payload else 0) payload.length
      = .ok (name.length % 256 :: (name
          ++ toLE DWORD (if st.writeCrc then crcFn payload else 0)
          ++ toLE QWORD payload.length)) := by
    simp only [StaticArchive.writeheader]
    rw [if_neg (by omega : ¬ 256 < name.length)]
  refine ⟨(StaticArchive.appendResult crcFn st name payload).1,
    (StaticArchive.appendResult crcFn st name payload).2, ?_, ?_⟩
  · simp only [StaticArchive.append]
    rw [if_neg (by simp [hclosed]), if_neg hmode,
      if_neg (by omega : ¬ 255 < name.length), hwh]
    rfl
  · exact take_after_signature _ _ payload _ (signatureBytes_length _)
      (le_trans hdata (Nat.le_add_right _ _)) (drop_at_data_end _ _ _)

/-- Witness for C1: a 1-byte name and a 3-byte payload on a fresh Create
handle round-trip. -/
theorem append_then_read_witness :
    ∃ st2 fi, StaticArchive.append (fun _ => 0) st0 [97] [1, 2, 3] = .ok (st2, fi) ∧
      (StaticArchive.read (fun _ => 0) st2 fi).1 = [1, 2, 3] :=
  append_then_read (fun _ => 0) st0 [97] [1, 2, 3] (by decide) (by decide)
    (by decide) (by decide) (by decide)
